import Mathlib

/-!
Verification development for the `detection-service` repository
(`src/detection-service/{detector.py, main.py, models.py, config.py}`).

The vision-LLM detector (`VisionDetector` in `detector.py`) is embedded
shallowly: Python dicts parsed from the LLM's JSON become the `RawItem`
structure, Python floats used for confidence scores and thresholds become
exact rationals (`ℚ`), Python ints become `Int`, and the external effects
of `detect` (client readiness, image preparation, the Anthropic API call,
`json.loads`) are abstracted into an explicit environment `Env` so that
`detect` itself is a pure function of that environment.

Rational constants are written as `Rat.mk'` literals in lowest terms
(e.g. 0.95 as `Rat.mk' 19 20`), and the Python string manipulation in
`_parse_response` is translated to structurally recursive functions over
`List Char`, so that every definition evaluates under `decide`.
-/

namespace DetectionService

/-- The rational 0.95 as an exact rational in lowest terms. -/
def qHigh : ℚ := Rat.mk' 19 20 (by decide) (by norm_num)

/-- The rational 0.75 as an exact rational in lowest terms. -/
def qMedium : ℚ := Rat.mk' 3 4 (by decide) (by norm_num)

/-- The rational 0.4 as an exact rational in lowest terms. -/
def qLow : ℚ := Rat.mk' 2 5 (by decide) (by norm_num)

/-- The rational 0.25 (the `Settings.confidence_threshold` default from config.py) as an
exact rational in lowest terms. -/
def qQuarter : ℚ := Rat.mk' 1 4 (by decide) (by norm_num)

/-- Model of `Settings` from `config.py`: the fields the detector and the HTTP
surface read (defaults as in `config.py`). -/
structure Settings where
  confidence_threshold : ℚ := qQuarter
  max_image_size : Nat := 2048
  max_upload_mb : Nat := 50
deriving DecidableEq

/-- Plain `Settings()` with all defaults. -/
def defaultSettings : Settings := {}

/-- One entry of the `items` array of the LLM's JSON response, as read by
`VisionDetector._parse_response` via `item.get(...)`.  `sections` models
the Python dict `item.get("sections", \x7b\x7d)`: an absent key and an
empty dict are both the empty list (both are falsy in Python). -/
structure RawItem where
  class_name : Option String := none
  sections : List (String × Int) := []
  total : Option Int := none
  confidence : Option String := none
  notes : Option String := none
deriving DecidableEq

/-- One element of the list returned by `VisionDetector._parse_response`
(the per-item dict appended to `results`, detector.py lines 164-172). -/
structure ParsedItem where
  class_name : String
  count : Int
  confidence : ℚ
  confidence_level : String
  sections : List (String × Int)
  notes : Option String
  needs_review : Bool
deriving DecidableEq

/-- Python `str.strip()` on the character list: drop whitespace from both
ends. -/
def trimChars (l : List Char) : List Char :=
  (((l.dropWhile Char.isWhitespace).reverse).dropWhile Char.isWhitespace).reverse

/-- Python `str.split("\n")` on the character list. -/
def splitNl : List Char → List (List Char)
  | [] => [[]]
  | c :: rest =>
    if c = '\n' then [] :: splitNl rest
    else match splitNl rest with
      | [] => [[c]]
      | h :: t => (c :: h) :: t

/-- Python `"\n".join(...)` on character lists. -/
def joinNl : List (List Char) → List Char
  | [] => []
  | [x] => x
  | x :: xs => x ++ '\n' :: joinNl xs

/-- Python `str.lower()` on the character list. -/
def toLowerChars (l : List Char) : List Char := l.map Char.toLower

/-- Model of `CONFIDENCE_MAP` from detector.py line 28:
`\x7b"high": 0.95, "medium": 0.75, "low": 0.4\x7d`, as a partial map. -/
def CONFIDENCE_MAP (s : String) : Option ℚ :=
  if s = ("high") then some qHigh
  else if s = ("medium") then some qMedium
  else if s = ("low") then some qLow
  else none

/-- detector.py lines 140-142: `str(item.get("confidence", "medium")).lower()`,
replaced by `"medium"` when not a key of `CONFIDENCE_MAP`. -/
def confLevel (item : RawItem) : String :=
  let l := String.mk (toLowerChars (item.confidence.getD ("medium")).data)
  if (CONFIDENCE_MAP l).isSome then l else ("medium")

/-- detector.py line 143: `conf_numeric = CONFIDENCE_MAP[confidence_level]`
(`confLevel` is always a key of the map, so the `getD` default is inert). -/
def confNumeric (item : RawItem) : ℚ :=
  (CONFIDENCE_MAP (confLevel item)).getD 0

/-- detector.py line 149:
`sum(int(v) for v in sections.values()) if sections else 0`. -/
def sectionSum (secs : List (String × Int)) : Int :=
  if secs = [] then 0 else (secs.map (fun kv => kv.2)).sum

/-- detector.py line 150: `int(item.get("total", 0))`. -/
def statedTotal (item : RawItem) : Int :=
  item.total.getD 0

/-- detector.py lines 152-162: reconciliation of the section sum against
the stated total. -/
def resolvedCount (item : RawItem) : Int :=
  let s := sectionSum item.sections
  let t := statedTotal item
  if item.sections ≠ [] ∧ 0 < s ∧ s ≠ t then s
  else if 0 < s then s
  else max 1 t

/-- detector.py lines 164-172: the dict appended to `results` for one
surviving item. -/
def parseOne (item : RawItem) : ParsedItem :=
  { class_name := item.class_name.getD ("unknown")
    count := resolvedCount item
    confidence := confNumeric item
    confidence_level := confLevel item
    sections := item.sections
    notes := item.notes
    needs_review := confLevel item == "low" }

/-- detector.py lines 138-173: the loop over `items`, dropping an item
when its numeric confidence is strictly below the threshold (line 145)
and otherwise appending `parseOne`. -/
def parseItems (items : List RawItem) (thresh : ℚ) : List ParsedItem :=
  items.filterMap (fun it => if confNumeric it < thresh then none else some (parseOne it))

/-- detector.py lines 130-133: strip a Markdown code fence, exactly as the
code does (`strip()`, `split("\n")`, drop the first and the last line,
re-join with `"\n"`, `strip()`). -/
def stripFence (text : String) : String :=
  let cleaned := trimChars text.data
  if (("```").data).isPrefixOf cleaned then
    String.mk (trimChars (joinNl ((splitNl cleaned).drop 1).dropLast))
  else String.mk cleaned

/-- Model of `VisionDetector._parse_response` (detector.py lines 128-173),
parameterised over `json.loads` composed with the `items` extraction
(`data.get("items", [])` plus the per-item field reads): `jsonLoads`
returns `none` exactly when `json.loads` would raise on the
fence-stripped text; the raise is caught in `detect` (lines 241-248). -/
def parse_response (jsonLoads : String → Option (List RawItem)) (text : String)
    (thresh : ℚ) : Except String (List ParsedItem) :=
  match jsonLoads (stripFence text) with
  | none => Except.error ("Failed to parse detection results")
  | some items => Except.ok (parseItems items thresh)

/-- Model of `DetectedObject` from models.py (bbox is a rectangle of floats,
always `none` on the vision path). -/
structure DetectedObject where
  class_name : String
  class_id : Int := 0
  confidence : ℚ
  bbox : Option (ℚ × ℚ × ℚ × ℚ) := none
  description : Option String := none
deriving DecidableEq

/-- Model of `DetectionSummary` from models.py (the fields `detect` fills in).
`sections` is `none` when the item's section dict was empty/absent. -/
structure DetectionSummary where
  class_name : String
  count : Int
  avg_confidence : ℚ
  confidence_level : String := "medium"
  category : String := "Uncategorized"
  sections : Option (List (String × Int)) := none
  notes : Option String := none
  needs_review : Bool := false
deriving DecidableEq

/-- Model of `DetectionResponse` from models.py.  `processing_time_ms` is wall-clock
time and is not modelled. -/
structure DetectionResponse where
  success : Bool
  detections : List DetectedObject := []
  summary : List DetectionSummary := []
  total_objects : Int := 0
  image_width : Nat := 0
  image_height : Nat := 0
  error : Option String := none
  image_preview : Option String := none
deriving DecidableEq

/-- The successful outcome of `VisionDetector._prepare_image`:
`(b64_str, media_type, orig_w, orig_h)`. -/
structure PrepOk where
  b64 : String
  media_type : String
  width : Nat
  height : Nat

/-- Outcome of the Anthropic API call block (detector.py lines 196-239):
either some exception (API error, transport failure, no text block) or the
raw text of the first text block. -/
inductive ApiOutcome where
  | err (msg : String)
  | text (raw : String)

/-- The external effects `detect` depends on, made explicit: client
readiness (`self._ready and self.client is not None`), the outcome of
`_prepare_image`, the outcome of the API call, and `json.loads` composed
with the `items` extraction (`none` = raise). -/
structure Env where
  ready : Bool
  prepare : Except String PrepOk
  api : ApiOutcome
  jsonLoads : String → Option (List RawItem)

/-- detector.py lines 187-188:
`conf_thresh = confidence_threshold or self.settings.confidence_threshold`.
Python `or` takes the default when the argument is `None` or the falsy
`0.0`. -/
def resolveThresh (confidence_threshold : Option ℚ) (d : ℚ) : ℚ :=
  match confidence_threshold with
  | none => d
  | some x => if x = 0 then d else x

/-- detector.py lines 250-282: the success envelope built from the parsed
items (one detection and one summary entry per parsed item, in order). -/
def mkSuccess (parsed : List ParsedItem) (prep : PrepOk) : DetectionResponse :=
  { success := true
    detections := parsed.map (fun p =>
      { class_name := p.class_name
        class_id := 0
        confidence := p.confidence
        bbox := none
        description := p.notes })
    summary := parsed.map (fun p =>
      { class_name := p.class_name
        count := p.count
        avg_confidence := p.confidence
        confidence_level := p.confidence_level
        sections := if p.sections = [] then none else some p.sections
        notes := p.notes
        needs_review := p.needs_review })
    total_objects := (parsed.map (fun p => p.count)).sum
    image_width := prep.width
    image_height := prep.height
    error := none
    image_preview := some prep.b64 }

/-- Model of `VisionDetector.detect` (detector.py lines 175-282) over an explicit
environment. -/
def detect (env : Env) (settings : Settings) (confidence_threshold : Option ℚ) :
    DetectionResponse :=
  if env.ready then
    let conf_thresh := resolveThresh confidence_threshold settings.confidence_threshold
    match env.prepare with
    | Except.error e => { success := false, error := some ("Invalid image: " ++ e) }
    | Except.ok prep =>
      match env.api with
      | ApiOutcome.err m => { success := false, error := some ("Vision API error: " ++ m) }
      | ApiOutcome.text raw =>
        match parse_response env.jsonLoads raw conf_thresh with
        | Except.error e => { success := false, error := some e }
        | Except.ok parsed => mkSuccess parsed prep
  else
    { success := false
      error := some ("Vision API client not initialized. Check ANTHROPIC_API_KEY.") }

/-- Outcome of the `/detect` route: an `HTTPException` with a status code,
or the successful `DetectionResponse`. -/
inductive HttpResult where
  | httpError (status : Nat) (detail : String)
  | ok (resp : DetectionResponse)
deriving DecidableEq

/-- HTTP status of a route outcome (200 for a returned response). -/
def httpStatus : HttpResult → Nat
  | HttpResult.httpError s _ => s
  | HttpResult.ok _ => 200

/-- The request-time state `detect_objects` reads: whether
`get_detector()` returned a loaded detector, the upload's content type,
its byte length, and the result of `det.detect` on its bytes. -/
structure SurfaceEnv where
  detector_available : Bool
  content_type : Option String
  content_len : Nat
  detect_result : DetectionResponse

/-- Model of `detect_objects` (main.py lines 197-243): the guard chain — 503 when
the detector is unavailable, 400 on a non-image content type, 413 above
the size limit, 400 below 100 bytes, 422 when detection fails. -/
def detect_objects (senv : SurfaceEnv) (settings : Settings) : HttpResult :=
  if senv.detector_available = false then
    HttpResult.httpError 503 ("Detection model not available")
  else if (match senv.content_type with
           | some ct => (("image/").data).isPrefixOf ct.data
           | none => false) = false then
    HttpResult.httpError 400 ("Invalid content type")
  else if settings.max_upload_mb * 1024 * 1024 < senv.content_len then
    HttpResult.httpError 413 ("Image too large")
  else if senv.content_len < 100 then
    HttpResult.httpError 400 ("Image file appears to be empty")
  else if senv.detect_result.success = false then
    HttpResult.httpError 422 ((senv.detect_result.error).getD (""))
  else
    HttpResult.ok senv.detect_result

/-- Exact representation of a non-negative IEEE-754 double in the normal
range: the value is `mant / 2 ^ shift` (for `shift ≥ 0`) or
`mant * 2 ^ (-shift)` (for `shift < 0`), with `mant` a 53-bit significand. -/
structure DoubleRep where
  mant : Nat
  shift : Int
deriving DecidableEq

/-- Walk the binary exponent until the scaled numerator `n * 2 ^ s / d`
lies in the significand range `[2 ^ 52, 2 ^ 53)`; the fuel of 200 covers
every magnitude arising from pixel dimensions (no overflow/subnormals). -/
def adjustShift : Nat → Int → Nat → Nat → Int
  | 0, s, _, _ => s
  | fuel + 1, s, n, d =>
    let num := if 0 ≤ s then n * 2 ^ s.toNat else n
    let den := if 0 ≤ s then d else d * 2 ^ (-s).toNat
    if num < 2 ^ 52 * den then adjustShift fuel (s + 1) n d
    else if 2 ^ 53 * den ≤ num then adjustShift fuel (s - 1) n d
    else s

/-- Round the exact quotient `num / den` to the nearest integer, ties to
even — IEEE-754 round-to-nearest-even on the significand. -/
def roundMantissa (num den : Nat) : Nat :=
  let q := num / den
  let r := num % den
  if 2 * r < den then q
  else if den < 2 * r then q + 1
  else if q % 2 = 0 then q else q + 1

/-- Round the exact non-negative rational `n / d` to the nearest IEEE-754
double (normal range). -/
def floatOfRat (n d : Nat) : DoubleRep :=
  if n = 0 ∨ d = 0 then ⟨0, 0⟩
  else
    let s := adjustShift 200 0 n d
    let num := if 0 ≤ s then n * 2 ^ s.toNat else n
    let den := if 0 ≤ s then d else d * 2 ^ (-s).toNat
    ⟨roundMantissa num den, s⟩

/-- Python float division of two non-negative integers: one correctly
rounded double. -/
def floatDiv (a b : Nat) : DoubleRep := floatOfRat a b

/-- Python float multiplication of an integer (exact as a double for
pixel-sized values) by a double: the exact product, rounded once. -/
def floatMulNat (w : Nat) (x : DoubleRep) : DoubleRep :=
  if 0 ≤ x.shift then floatOfRat (w * x.mant) (2 ^ x.shift.toNat)
  else floatOfRat (w * x.mant * 2 ^ (-x.shift).toNat) 1

/-- Python `int(...)` on a non-negative double: truncation = floor. -/
def floatFloor (x : DoubleRep) : Nat :=
  if 0 ≤ x.shift then x.mant / 2 ^ x.shift.toNat else x.mant * 2 ^ (-x.shift).toNat

/-- The resize arithmetic of `VisionDetector._prepare_image`
(detector.py lines 113-120): `scale = max_dim / max(w, h)` and
`int(w * scale)`, `int(h * scale)`, with the division and the
multiplications performed in IEEE-754 double arithmetic
(round-to-nearest-even), exactly as CPython evaluates them. -/
def prepare_image_dims (max_image_size w h : Nat) : Nat × Nat :=
  if max_image_size < max w h then
    let scale := floatDiv max_image_size (max w h)
    (floatFloor (floatMulNat w scale), floatFloor (floatMulNat h scale))
  else (w, h)

/-! ### Helper lemmas -/

/-- The constant 0.95 in lowest terms equals the division form. -/
lemma qHigh_eq : qHigh = 19/20 := by
  rw [qHigh, Rat.mk'_eq_divInt, Rat.divInt_eq_div]; norm_num

/-- The constant 0.75 in lowest terms equals the division form. -/
lemma qMedium_eq : qMedium = 3/4 := by
  rw [qMedium, Rat.mk'_eq_divInt, Rat.divInt_eq_div]; norm_num

/-- The constant 0.4 in lowest terms equals the division form. -/
lemma qLow_eq : qLow = 2/5 := by
  rw [qLow, Rat.mk'_eq_divInt, Rat.divInt_eq_div]; norm_num

/-- Inversion of membership in the filtered item list: every parsed item
comes from a raw item that passed the confidence filter. -/
lemma mem_parseItems {items : List RawItem} {thresh : ℚ} {p : ParsedItem}
    (hp : p ∈ parseItems items thresh) :
    ∃ item, item ∈ items ∧ ¬ confNumeric item < thresh ∧ p = parseOne item := by
  unfold parseItems at hp
  rcases List.mem_filterMap.mp hp with ⟨item, hmem, hf⟩
  by_cases hc : confNumeric item < thresh
  · simp [hc] at hf
  · refine ⟨item, hmem, hc, ?_⟩
    simp [hc] at hf
    exact hf.symm

/-- The reconciled count is always at least 1. -/
lemma one_le_resolvedCount (item : RawItem) : 1 ≤ resolvedCount item := by
  simp only [resolvedCount]
  split_ifs with h1 h2
  · omega
  · omega
  · exact le_max_left 1 _

/-- A list of items whose counts are all at least 1 has sum of counts at
least its length. -/
lemma length_le_sum_of_one_le (l : List ParsedItem) (h : ∀ p ∈ l, 1 ≤ p.count) :
    (l.length : Int) ≤ (l.map (fun p => p.count)).sum := by
  induction l with
  | nil => simp
  | cons a t ih =>
    have ha := h a (List.mem_cons_self a t)
    have ht := ih (fun p hp => h p (List.mem_cons_of_mem a hp))
    simp only [List.map_cons, List.sum_cons, List.length_cons]
    push_cast
    omega

/-- Inversion of a successful `detect`: success forces the ready client,
a decoded image, an API text block and valid JSON, and the response is the
assembled success envelope. -/
lemma detect_success {env : Env} {settings : Settings} {ct : Option ℚ}
    (h : (detect env settings ct).success = true) :
    ∃ prep raw items,
      env.ready = true ∧ env.prepare = Except.ok prep ∧ env.api = ApiOutcome.text raw ∧
      env.jsonLoads (stripFence raw) = some items ∧
      detect env settings ct =
        mkSuccess (parseItems items (resolveThresh ct settings.confidence_threshold)) prep := by
  by_cases hready : env.ready = true
  · cases hprep : env.prepare with
    | error e => simp [detect, hready, hprep] at h
    | ok prep =>
      cases hapi : env.api with
      | err m => simp [detect, hready, hprep, hapi] at h
      | text raw =>
        cases hjson : env.jsonLoads (stripFence raw) with
        | none => simp [detect, parse_response, hready, hprep, hapi, hjson] at h
        | some items =>
          exact ⟨prep, raw, items, hready, rfl, rfl, hjson, by
            simp [detect, parse_response, hready, hprep, hapi, hjson]⟩
  · simp [detect, hready] at h

/-! ### Concrete inputs used by witnesses and counterexamples -/

/-- The rational 0.8 (the threshold of the spec's filtering example) in lowest terms. -/
def qFourFifths : ℚ := Rat.mk' 4 5 (by decide) (by norm_num)

/-- A raw item declaring high confidence with a stated total of 2. -/
def itemHigh : RawItem := { class_name := some ("cola"), total := some 2, confidence := some ("high") }

/-- A raw item declaring medium confidence. -/
def itemMedium : RawItem := { class_name := some ("cup"), total := some 1, confidence := some ("medium") }

/-- A raw item whose sections sum to 3 while the stated total is 5
(the spec's grid-reconciliation example). -/
def itemSecs : RawItem :=
  { class_name := some ("box")
    sections := [("top_left", 1), ("top_center", 2), ("top_right", 0)]
    total := some 5
    confidence := some ("high") }

/-- A raw item of class `can` with stated total 1 and no sections. -/
def itemCanOne : RawItem := { class_name := some ("can"), total := some 1, confidence := some ("high") }

/-- A raw item of class `can` with stated total 5 and no sections. -/
def itemCanFive : RawItem := { class_name := some ("can"), total := some 5, confidence := some ("high") }

/-- A successful image preparation outcome. -/
def prepW : PrepOk := { b64 := "b64", media_type := "image/jpeg", width := 8, height := 6 }

/-- Environment: ready client, decoded image, API text, JSON with one
high-confidence item. -/
def envW : Env :=
  { ready := true, prepare := Except.ok prepW, api := ApiOutcome.text ("r")
    jsonLoads := fun _ => some [itemHigh] }

/-- Environment whose JSON holds two items of the same class with counts
1 and 5 (in that order). -/
def envC3 : Env :=
  { ready := true, prepare := Except.ok prepW, api := ApiOutcome.text ("r")
    jsonLoads := fun _ => some [itemCanOne, itemCanFive] }

/-- Environment whose (fenced) response text is not valid JSON. -/
def envBadJson : Env :=
  { ready := true, prepare := Except.ok prepW
    api := ApiOutcome.text ("```json\nnot valid json\n```")
    jsonLoads := fun _ => none }

/-- Environment whose JSON parses to an empty `items` array. -/
def envEmpty : Env :=
  { ready := true, prepare := Except.ok prepW, api := ApiOutcome.text ("r")
    jsonLoads := fun _ => some [] }

/-- A request with a 10-byte image body hitting an unavailable detector. -/
def envC7 : SurfaceEnv :=
  { detector_available := false, content_type := some ("image/jpeg"), content_len := 10
    detect_result := { success := true } }

/-- A request with a 10-byte image body and an available detector. -/
def envC7b : SurfaceEnv :=
  { detector_available := true, content_type := some ("image/jpeg"), content_len := 10
    detect_result := { success := true } }

/-! ### Claim theorems -/

/-- C1: for every parsed item surviving the confidence filter, a positive
section sum that disagrees with the stated total wins; when sections are
absent or their sum is not positive, the stated total floored at 1 is
used, so no sections and no total resolve to count 1. -/
theorem C1_section_sum_wins (items : List RawItem) (thresh : ℚ) (p : ParsedItem)
    (hp : p ∈ parseItems items thresh) :
    ∃ item, item ∈ items ∧ ¬ confNumeric item < thresh ∧ p.count = resolvedCount item ∧
      ((item.sections ≠ [] ∧ 0 < sectionSum item.sections ∧
          sectionSum item.sections ≠ statedTotal item) →
        p.count = sectionSum item.sections) ∧
      ((item.sections = [] ∨ sectionSum item.sections ≤ 0) →
        p.count = max 1 (statedTotal item)) ∧
      ((item.sections = [] ∧ item.total = none) → p.count = 1) := by
  obtain ⟨item, hmem, hconf, rfl⟩ := mem_parseItems hp
  refine ⟨item, hmem, hconf, rfl, ?_, ?_, ?_⟩
  · rintro ⟨h1, h2, h3⟩
    simp [parseOne, resolvedCount, h1, h2, h3]
  · rintro (h | h)
    · simp [parseOne, resolvedCount, h, sectionSum]
    · have h1 : ¬ 0 < sectionSum item.sections := by omega
      simp only [parseOne, resolvedCount]
      rw [if_neg (by tauto), if_neg h1]
  · rintro ⟨h1, h2⟩
    simp [parseOne, resolvedCount, h1, h2, sectionSum, statedTotal]

/-- C1 witness: the spec's example — sections summing to 3 against a
stated total of 5 resolve to 3. -/
theorem C1_witness : (parseOne itemSecs).count = 3 := by
  obtain ⟨item, hmem, -, -, hsec, -, -⟩ :=
    C1_section_sum_wins [itemSecs] 0 (parseOne itemSecs) (by decide)
  rw [List.mem_singleton] at hmem
  subst hmem
  rw [hsec (by decide)]
  decide

/-- C2: the declared confidence level maps to a fixed numeric score
(high 0.95, medium 0.75, low 0.4, absent or unrecognized defaulting to
medium), and an item is dropped exactly when that score is strictly below
the threshold. -/
theorem C2_confidence_map_filter (item : RawItem) (thresh : ℚ) :
    (item.confidence = some ("high") → confNumeric item = 19/20) ∧
    (item.confidence = some ("medium") → confNumeric item = 3/4) ∧
    (item.confidence = some ("low") → confNumeric item = 2/5) ∧
    (item.confidence = none → confNumeric item = 3/4) ∧
    (∀ s, item.confidence = some s →
      CONFIDENCE_MAP (String.mk (toLowerChars s.data)) = none → confNumeric item = 3/4) ∧
    (parseItems [item] thresh = [] ↔ confNumeric item < thresh) ∧
    (¬ confNumeric item < thresh → parseItems [item] thresh = [parseOne item]) := by
  refine ⟨?_, ?_, ?_, ?_, ?_, ?_, ?_⟩
  · intro h
    rw [← qHigh_eq]
    unfold confNumeric confLevel
    rw [h]
    decide
  · intro h
    rw [← qMedium_eq]
    unfold confNumeric confLevel
    rw [h]
    decide
  · intro h
    rw [← qLow_eq]
    unfold confNumeric confLevel
    rw [h]
    decide
  · intro h
    rw [← qMedium_eq]
    unfold confNumeric confLevel
    rw [h]
    decide
  · intro s h h2
    rw [← qMedium_eq]
    unfold confNumeric confLevel
    rw [h]
    simp only [Option.getD_some]
    rw [h2]
    simp [CONFIDENCE_MAP]
  · constructor
    · intro h
      by_contra hc
      simp [parseItems, hc] at h
    · intro h
      simp [parseItems, h]
  · intro h
    simp [parseItems, h]

/-- C2 witness: the spec's filtering example at threshold 0.8 — a
medium-level item is dropped, a high-level item is kept. -/
theorem C2_witness :
    parseItems [itemMedium] qFourFifths = [] ∧
    parseItems [itemHigh] qFourFifths = [parseOne itemHigh] := by
  constructor
  · exact (C2_confidence_map_filter itemMedium qFourFifths).2.2.2.2.2.1.mpr (by decide)
  · exact (C2_confidence_map_filter itemHigh qFourFifths).2.2.2.2.2.2 (by decide)

/-- C4: every `DetectionResponse` produced by `detect` satisfies the
envelope invariant — on failure, empty detections and summary with a
non-null error; on success, a null error. -/
theorem C4_envelope_invariant (env : Env) (settings : Settings) (ct : Option ℚ) :
    if (detect env settings ct).success then (detect env settings ct).error = none
    else (detect env settings ct).detections = [] ∧ (detect env settings ct).summary = [] ∧
      (detect env settings ct).error ≠ none := by
  by_cases hready : env.ready = true
  · cases hprep : env.prepare with
    | error e => simp [detect, hready, hprep]
    | ok prep =>
      cases hapi : env.api with
      | err m => simp [detect, hready, hprep, hapi]
      | text raw =>
        cases hjson : env.jsonLoads (stripFence raw) with
        | none => simp [detect, parse_response, hready, hprep, hapi, hjson]
        | some items => simp [detect, parse_response, mkSuccess, hready, hprep, hapi, hjson]
  · simp [detect, hready]

/-- C9: every item emitted by the parse/reconciliation step has a count of
at least 1, so a successful response's `total_objects` is at least the
number of detections and of summary entries. -/
theorem C9_total_at_least_entries (items : List RawItem) (thresh : ℚ) (env : Env)
    (settings : Settings) (ct : Option ℚ) :
    (∀ p, p ∈ parseItems items thresh → 1 ≤ p.count) ∧
    ((detect env settings ct).success = true →
      ((detect env settings ct).detections.length : Int) ≤ (detect env settings ct).total_objects ∧
      ((detect env settings ct).summary.length : Int) ≤ (detect env settings ct).total_objects) := by
  constructor
  · intro p hp
    obtain ⟨item, -, -, rfl⟩ := mem_parseItems hp
    exact one_le_resolvedCount item
  · intro hs
    obtain ⟨prep, raw, items2, -, -, -, -, heq⟩ := detect_success hs
    rw [heq]
    unfold mkSuccess
    simp only [List.length_map]
    constructor <;>
      exact length_le_sum_of_one_le _
        (fun p hp => by
          obtain ⟨item, -, -, rfl⟩ := mem_parseItems hp
          exact one_le_resolvedCount item)

/-- C9 witness: a concrete successful detection where the total is at
least the number of detections. -/
theorem C9_witness :
    1 ≤ (parseOne itemHigh).count ∧
    ((detect envW defaultSettings none).detections.length : Int) ≤
      (detect envW defaultSettings none).total_objects := by
  constructor
  · exact (C9_total_at_least_entries [itemHigh] 0 envW defaultSettings none).1
      (parseOne itemHigh) (by decide)
  · exact ((C9_total_at_least_entries [itemHigh] 0 envW defaultSettings none).2 (by decide)).1

/-- C10: calling `detect` with a confidence threshold of exactly 0
behaves identically to passing no threshold — the falsy value is replaced
by the configured default. -/
theorem C10_zero_threshold_is_default (env : Env) (settings : Settings) :
    detect env settings (some 0) = detect env settings none := by
  unfold detect
  simp [resolveThresh]

/-- C5: when the fence-stripped response text is not valid JSON, `detect`
fails on the same request (success=false, error populated), the surface
maps it to 422, and the code fence is stripped before parsing. -/
theorem C5_parse_failure (env : Env) (settings : Settings) (ct : Option ℚ)
    (raw : String) (prep : PrepOk) (n : Nat)
    (hready : env.ready = true) (hprep : env.prepare = Except.ok prep)
    (hapi : env.api = ApiOutcome.text raw)
    (hbad : env.jsonLoads (stripFence raw) = none)
    (hn1 : 100 ≤ n) (hn2 : n ≤ settings.max_upload_mb * 1024 * 1024) :
    (detect env settings ct).success = false ∧
    (detect env settings ct).error ≠ none ∧
    httpStatus (detect_objects
      { detector_available := true
        content_type := some ("image/jpeg")
        content_len := n
        detect_result := detect env settings ct } settings) = 422 ∧
    stripFence ("```json\nnot valid json\n```") = ("not valid json") := by
  have hd : detect env settings ct =
      { success := false, error := some ("Failed to parse detection results") } := by
    simp [detect, parse_response, hready, hprep, hapi, hbad]
  have h413 : ¬ settings.max_upload_mb * 1024 * 1024 < n := by omega
  have h100 : ¬ n < 100 := by omega
  have hct : ((("image/").data).isPrefixOf (("image/jpeg").data)) = true := by decide
  refine ⟨by simp [hd], by simp [hd], ?_, by decide⟩
  simp [detect_objects, httpStatus, hd, hct, h413, h100]

/-- C5 witness: a concrete environment with an unparseable fenced
response yields a failed response with an error message. -/
theorem C5_witness :
    (detect envBadJson defaultSettings none).success = false ∧
    (detect envBadJson defaultSettings none).error ≠ none := by
  obtain ⟨h1, h2, -, -⟩ := C5_parse_failure envBadJson defaultSettings none
    ("```json\nnot valid json\n```") prepW 100 rfl rfl rfl rfl (by decide) (by decide)
  exact ⟨h1, h2⟩

/-- C6: in a successful response, `total_objects` is the sum of the
per-item resolved counts, and an empty `items` array gives success with
total 0 and empty summary and detections. -/
theorem C6_total_is_sum_of_counts (env : Env) (settings : Settings) (ct : Option ℚ)
    (raw : String) (prep : PrepOk) (items : List RawItem)
    (hready : env.ready = true) (hprep : env.prepare = Except.ok prep)
    (hapi : env.api = ApiOutcome.text raw)
    (hjson : env.jsonLoads (stripFence raw) = some items) :
    (detect env settings ct).success = true ∧
    (detect env settings ct).total_objects =
      ((parseItems items (resolveThresh ct settings.confidence_threshold)).map
        (fun p => p.count)).sum ∧
    (items = [] →
      (detect env settings ct).total_objects = 0 ∧
      (detect env settings ct).summary = [] ∧
      (detect env settings ct).detections = []) := by
  have hd : detect env settings ct =
      mkSuccess (parseItems items (resolveThresh ct settings.confidence_threshold)) prep := by
    simp [detect, parse_response, hready, hprep, hapi, hjson]
  refine ⟨by simp [hd, mkSuccess], by simp [hd, mkSuccess], ?_⟩
  rintro rfl
  simp [hd, mkSuccess, parseItems]

/-- C6 witness: the empty-items response gives success, zero total, empty
summary. -/
theorem C6_witness :
    (detect envEmpty defaultSettings none).success = true ∧
    (detect envEmpty defaultSettings none).total_objects = 0 ∧
    (detect envEmpty defaultSettings none).summary = [] := by
  obtain ⟨h1, -, h3⟩ := C6_total_is_sum_of_counts envEmpty defaultSettings none
    ("r") prepW [] rfl rfl rfl rfl
  exact ⟨h1, (h3 rfl).1, (h3 rfl).2.1⟩

/-- C3 counterexample: the summary is not grouped by class name and is
not ordered by descending count — two surviving items of the same class
produce two separate summary entries, in parse order, with counts 1 then
5. -/
theorem C3_counterexample :
    (detect envC3 defaultSettings none).summary.map (fun g => g.class_name) =
      [("can"), ("can")] ∧
    (detect envC3 defaultSettings none).summary.map (fun g => g.count) = [1, 5] := by
  decide

/-- C3 as amended: the assembler emits one detection and one summary
entry per surviving item, in parse order, carrying that item's resolved
count and its own confidence (no grouping, no reordering). -/
theorem C3_per_item_summary (env : Env) (settings : Settings) (ct : Option ℚ)
    (raw : String) (prep : PrepOk) (items : List RawItem)
    (hready : env.ready = true) (hprep : env.prepare = Except.ok prep)
    (hapi : env.api = ApiOutcome.text raw)
    (hjson : env.jsonLoads (stripFence raw) = some items) :
    (detect env settings ct).summary.map (fun g => g.class_name) =
      (parseItems items (resolveThresh ct settings.confidence_threshold)).map
        (fun p => p.class_name) ∧
    (detect env settings ct).summary.map (fun g => g.count) =
      (parseItems items (resolveThresh ct settings.confidence_threshold)).map
        (fun p => p.count) ∧
    (detect env settings ct).summary.map (fun g => g.avg_confidence) =
      (parseItems items (resolveThresh ct settings.confidence_threshold)).map
        (fun p => p.confidence) ∧
    (detect env settings ct).detections.map (fun d => d.class_name) =
      (parseItems items (resolveThresh ct settings.confidence_threshold)).map
        (fun p => p.class_name) := by
  have hd : detect env settings ct =
      mkSuccess (parseItems items (resolveThresh ct settings.confidence_threshold)) prep := by
    simp [detect, parse_response, hready, hprep, hapi, hjson]
  refine ⟨?_, ?_, ?_, ?_⟩ <;> simp [hd, mkSuccess, List.map_map, Function.comp]

/-- C3 amended witness: at the concrete two-item environment, the summary
counts are exactly the per-item counts in parse order. -/
theorem C3_per_item_summary_witness :
    (detect envC3 defaultSettings none).summary.map (fun g => g.count) =
      (parseItems [itemCanOne, itemCanFive]
        (resolveThresh none defaultSettings.confidence_threshold)).map (fun p => p.count) :=
  (C3_per_item_summary envC3 defaultSettings none ("r") prepW [itemCanOne, itemCanFive]
    rfl rfl rfl rfl).2.1

/-- C7 counterexample: a 10-byte body with the detector unavailable is
answered with 503, not 400 — the availability check precedes the
empty-body check. -/
theorem C7_counterexample :
    envC7.content_len < 100 ∧
    httpStatus (detect_objects envC7 defaultSettings) = 503 ∧
    httpStatus (detect_objects envC7 defaultSettings) ≠ 400 := by
  decide

/-- C7 as amended: a body below 100 bytes (within the size limit) is
answered with 400 provided the detector is available; an unavailable
detector takes precedence with 503. -/
theorem C7_under_100_gives_400 (senv : SurfaceEnv) (settings : Settings)
    (h1 : senv.detector_available = true) (h2 : senv.content_len < 100)
    (h3 : senv.content_len ≤ settings.max_upload_mb * 1024 * 1024) :
    httpStatus (detect_objects senv settings) = 400 := by
  have h413 : ¬ settings.max_upload_mb * 1024 * 1024 < senv.content_len := by omega
  by_cases hct : (match senv.content_type with
    | some ct => (("image/").data).isPrefixOf ct.data
    | none => false) = false
  · simp [detect_objects, httpStatus, h1, hct]
  · simp [detect_objects, httpStatus, h1, hct, h413, h2]

/-- C7 amended witness: a 10-byte body with the detector available is
answered with 400. -/
theorem C7_under_100_gives_400_witness :
    httpStatus (detect_objects envC7b defaultSettings) = 400 :=
  C7_under_100_gives_400 envC7b defaultSettings rfl (by decide) (by decide)

/-- C8: at the default limit 2048, a 2215x1000 image resizes to 2047x924,
so the resized maximum dimension is 2047, not the limit 2048 — the double
rounding of `2048 / 2215` and of `2215 * scale` lands just below 2048 and
`int(...)` truncates (the claim holds in exact arithmetic but the code
computes in IEEE-754 doubles). -/
theorem C8_float_truncation :
    2048 < max 2215 1000 ∧
    prepare_image_dims 2048 2215 1000 = (2047, 924) ∧
    max (prepare_image_dims 2048 2215 1000).1 (prepare_image_dims 2048 2215 1000).2 ≠ 2048 := by
  decide

end DetectionService
